import Mathlib

/-!
Verification of the core order-verification workflow of `src/app.py`
(FMN Order Status Assistant): the two-factor record lookup
(`find_order_details`), the data-normalization step of `load_data`, the
per-session stage state machine of `main` (stages "name", "order",
"validate"), the failed-attempt rate limiter (attempts / blocked_until),
and the inactivity timeout monitor (`check_timeout`).

Strings are modelled as lists of Unicode code points (`List Nat`), with
Python's `str.strip` and `str.upper` translated pointwise (ASCII range,
which covers every key the program compares). Times are modelled in
seconds as `Nat`.
-/

namespace App

/-- A Python string, as its list of code points. -/
abbrev PyStr := List Nat

/-- Code points of a Lean string literal, for concrete inputs. -/
def pyStr (s : String) : PyStr := s.toList.map Char.toNat

/-- Python `str.strip` whitespace set (ASCII): space, \t, \n, \v, \f, \r. -/
def isSpace (n : Nat) : Bool :=
  n == 32 || n == 9 || n == 10 || n == 11 || n == 12 || n == 13

/-- Python `str.upper` on one code point (ASCII letters). -/
def upperCode (n : Nat) : Nat :=
  if 97 ≤ n ∧ n ≤ 122 then n - 32 else n

/-- Remove leading whitespace. -/
def lstrip (s : PyStr) : PyStr := s.dropWhile isSpace

/-- Remove trailing whitespace. -/
def rstrip (s : PyStr) : PyStr := (s.reverse.dropWhile isSpace).reverse

/-- Python `str.strip`: remove leading and trailing whitespace. -/
def pyStrip (s : PyStr) : PyStr := rstrip (lstrip s)

/-- Python `str.upper`. -/
def pyUpper (s : PyStr) : PyStr := s.map upperCode

/-- The program's normalization `x.strip().upper()`, used on both lookup
inputs (app.py lines 195-196, 405) and on both key columns at load time
(app.py lines 177-181). -/
def stripUpper (s : PyStr) : PyStr := pyUpper (pyStrip s)

/-- One line-item row of the data frame. `find_order_details` consults only
the "Sales order" and "Invoice account" columns; `recid` stands in for the
remaining columns and keeps distinct rows distinct. -/
structure Record where
  recid : Nat
  salesOrder : PyStr
  invoiceAccount : PyStr
deriving DecidableEq

/-- The three possible returns of `find_order_details` (app.py lines
189-208): a non-empty data frame of rows, the string "invalid_invoice",
or Python `None`. -/
inductive LookupResult where
  | found (rows : List Record)
  | invalidInvoice
  | notFound
deriving DecidableEq

/-- The key-column normalization of `load_data` (app.py lines 177-181):
`df["Sales order"].astype(str).str.strip().str.upper()` and likewise for
`df["Invoice account"]`. -/
def load_normalize (df : List Record) : List Record :=
  df.map fun r =>
    { r with salesOrder := stripUpper r.salesOrder,
             invoiceAccount := stripUpper r.invoiceAccount }

/-- Lookup `find_order_details(order_id, invoice_account, df)` (app.py lines
189-208): normalize both inputs, filter rows matching both keys; if empty,
report `invalid_invoice` when the order id alone matches some row, else
`None`. -/
def find_order_details (order_id invoice_account : PyStr) (df : List Record) :
    LookupResult :=
  let order_clean := stripUpper order_id
  let invoice_clean := stripUpper invoice_account
  let rows := df.filter fun r =>
    r.salesOrder == order_clean && r.invoiceAccount == invoice_clean
  if rows.isEmpty then
    let order_exists := df.filter fun r => r.salesOrder == order_clean
    if order_exists.isEmpty then .notFound else .invalidInvoice
  else .found rows

/-- The three embedded fallback rows of `DATA_CSV_STRING` (app.py lines
168-171), projected to the columns the lookup consults. -/
def fallback_df : List Record :=
  [ { recid := 5637945894, salesOrder := pyStr ("SAP0014689"),
      invoiceAccount := pyStr ("C28402-B0") },
    { recid := 5637945893, salesOrder := pyStr ("SAP0014688"),
      invoiceAccount := pyStr ("C28402-B0") },
    { recid := 5637945892, salesOrder := pyStr ("SAP0014687"),
      invoiceAccount := pyStr ("C28402-B0") } ]

/-- The stage strings "name", "order", "validate" of `st.session_state.stage`. -/
inductive Stage where
  | name
  | order
  | validate
deriving DecidableEq

/-- Fields of `st.session_state` set by `init_session` (app.py lines 120-128).
Times are seconds as `Nat`; `blocked_until` is `None` or a timestamp. -/
structure Session where
  stage : Stage
  customer_name : PyStr
  order_id : PyStr
  attempts : Nat
  blocked_until : Option Nat
  last_activity : Nat
deriving DecidableEq

/-- Constant `MAX_ATTEMPTS = 3` (app.py line 117). -/
def MAX_ATTEMPTS : Nat := 3

/-- Constant `SESSION_TIMEOUT = 15` minutes (app.py line 118), in seconds. -/
def SESSION_TIMEOUT_SECS : Nat := 15 * 60

/-- Lockout duration: `timedelta(minutes=5)` (app.py lines 428, 437), in seconds. -/
def LOCKOUT_SECS : Nat := 5 * 60

/-- Function `init_session` (app.py lines 120-128): fresh session at time `now`. -/
def init_session (now : Nat) : Session :=
  { stage := .name, customer_name := [], order_id := [], attempts := 0,
    blocked_until := none, last_activity := now }

/-- Function `check_timeout` (app.py lines 130-139). On timeout it resets stage, name
and order id (and nothing else) and returns True; otherwise it refreshes
`last_activity` and returns False. `datetime` subtraction compared against a
positive bound coincides with truncated `Nat` subtraction. -/
def check_timeout (s : Session) (now : Nat) : Bool × Session :=
  if now - s.last_activity > SESSION_TIMEOUT_SECS then
    (true, { s with stage := .name, customer_name := [], order_id := [] })
  else
    (false, { s with last_activity := now })

/-- The user interactions of `main` (app.py lines 295-440), one per rerun:
the Confirm, Next, Restart, Verify & View Order, Back and Check Another
Order buttons, each with the text-input value it reads. -/
inductive UiEvent where
  | confirmName (nm : PyStr)
  | submitOrderId (oid : PyStr)
  | restart
  | verify (invoice_account : PyStr)
  | back
  | checkAnother
deriving DecidableEq

/-- What one rerun of `main` reports to the user. -/
inductive Outcome where
  | idle
  | nameRejected
  | nameAccepted
  | orderRejected
  | orderAccepted
  | restarted
  | lockedOut (remaining : Nat)
  | emptyInvoice
  | foundRows (rows : List Record)
  | mismatch
  | mismatchLocked
  | orderNotFound
  | orderNotFoundLocked
  | backDone
  | checkAnotherDone
deriving DecidableEq

/-- The outcomes the code counts as failed verifications (app.py lines
423-440): invoice-account mismatch or order not found, with or without the
lockout being triggered. -/
def Outcome.isFailure : Outcome → Bool
  | .mismatch => true
  | .mismatchLocked => true
  | .orderNotFound => true
  | .orderNotFoundLocked => true
  | _ => false

/-- The button handlers of stage "validate", reached after the blocked
check (app.py lines 378-440). `back` (lines 394-397) moves to stage
"order" and zeroes `attempts`; `verify` (lines 399-440) validates the
input, runs `find_order_details` and updates `attempts`/`blocked_until`;
Check Another Order (lines 418-421) moves to stage "order" clearing the
order id. -/
def validateButtons (s : Session) (now : Nat) (ev : UiEvent) (df : List Record) :
    Outcome × Session :=
  match ev with
  | .back => (.backDone, { s with stage := .order, attempts := 0 })
  | .verify invoice_account =>
      if pyStrip invoice_account = [] then (.emptyInvoice, s)
      else
        let invoice_clean := stripUpper invoice_account
        match find_order_details s.order_id invoice_clean df with
        | .found rows => (.foundRows rows, { s with attempts := 0 })
        | .invalidInvoice =>
            let a := s.attempts + 1
            if a ≥ MAX_ATTEMPTS then
              (.mismatchLocked,
               { s with attempts := a, blocked_until := some (now + LOCKOUT_SECS) })
            else (.mismatch, { s with attempts := a })
        | .notFound =>
            let a := s.attempts + 1
            if a ≥ MAX_ATTEMPTS then
              (.orderNotFoundLocked,
               { s with attempts := a, blocked_until := some (now + LOCKOUT_SECS) })
            else (.orderNotFound, { s with attempts := a })
  | .checkAnother => (.checkAnotherDone, { s with stage := .order, order_id := [] })
  | _ => (.idle, s)

/-- Stage "validate" (app.py lines 366-440). The blocked check (lines
368-376) runs before any button is rendered: while `now < blocked_until`
the rerun stops with the remaining seconds and nothing else happens; an
expired block is lazily cleared (`blocked_until = None`, `attempts = 0`)
before the buttons are handled. -/
def validateStep (s : Session) (now : Nat) (ev : UiEvent) (df : List Record) :
    Outcome × Session :=
  match s.blocked_until with
  | some b =>
      if now < b then (.lockedOut (b - now), s)
      else validateButtons
        { s with blocked_until := none, attempts := 0 } now ev df
  | none => validateButtons s now ev df

/-- One user action against `main`'s stage dispatch (app.py lines 324-440).
Stage "name" (lines 325-336): empty stripped name rejected, otherwise the
stripped name is stored and the stage becomes "order". Stage "order"
(lines 339-363): Restart clears name and order id back to stage "name";
Next rejects an empty stripped id and otherwise stores the stripped id and
moves to stage "validate". Stage "validate" defers to `validateStep`. -/
def step (s : Session) (now : Nat) (ev : UiEvent) (df : List Record) :
    Outcome × Session :=
  match s.stage, ev with
  | .name, .confirmName nm =>
      if pyStrip nm = [] then (.nameRejected, s)
      else (.nameAccepted, { s with customer_name := pyStrip nm, stage := .order })
  | .order, .restart =>
      (.restarted, { s with stage := .name, order_id := [], customer_name := [] })
  | .order, .submitOrderId oid =>
      if pyStrip oid = [] then (.orderRejected, s)
      else (.orderAccepted, { s with order_id := pyStrip oid, stage := .validate })
  | .validate, ev => validateStep s now ev df
  | _, _ => (.idle, s)

/-- Sessions reachable from a fresh session through the interactions of
`main`: button actions and the timeout check. -/
inductive Reachable : Session → Prop
  | init (t : Nat) : Reachable (init_session t)
  | step (s : Session) (now : Nat) (ev : UiEvent) (df : List Record) :
      Reachable s → Reachable (step s now ev df).2
  | timeout (s : Session) (now : Nat) :
      Reachable s → Reachable (check_timeout s now).2

/-- Results of a sequence of `check_timeout` calls. -/
def timeoutResults (s : Session) : List Nat → List Bool
  | [] => []
  | t :: ts => (check_timeout s t).1 :: timeoutResults (check_timeout s t).2 ts

/-- Session after a sequence of `check_timeout` calls. -/
def runTimeouts (s : Session) : List Nat → Session
  | [] => s
  | t :: ts => runTimeouts (check_timeout s t).2 ts

/-- Every call of the sequence happens within the inactivity window of the
session state it observes. -/
def withinWindow (s : Session) : List Nat → Bool
  | [] => true
  | t :: ts =>
      decide (t - s.last_activity ≤ SESSION_TIMEOUT_SECS) &&
      withinWindow (check_timeout s t).2 ts

/-- The claim-side row predicate: normalized order identifier and
normalized account identifier both equal the normalized inputs. -/
def claimMatches (o a : PyStr) (r : Record) : Bool :=
  stripUpper r.salesOrder == stripUpper o &&
  stripUpper r.invoiceAccount == stripUpper a

/-- The claim-side order-only predicate: normalized order identifier
equals the normalized input. -/
def claimOrderMatch (o : PyStr) (r : Record) : Bool :=
  stripUpper r.salesOrder == stripUpper o

/-- The rate-limiter invariant: the failed-attempt count never exceeds
`MAX_ATTEMPTS`, and a lockout-expiry is present exactly when the count
sits at the threshold. -/
def RateInv (s : Session) : Prop :=
  s.attempts ≤ MAX_ATTEMPTS ∧ (s.blocked_until ≠ none ↔ s.attempts = MAX_ATTEMPTS)

theorem upperCode_upperCode (n : Nat) : upperCode (upperCode n) = upperCode n := by
  unfold upperCode
  split
  · split <;> omega
  · rfl

theorem isSpace_upperCode (n : Nat) : isSpace (upperCode n) = isSpace n := by
  unfold upperCode isSpace
  split <;> [skip; rfl]
  have h32 : ¬(n - 32 == 32 || n - 32 == 9 || n - 32 == 10 || n - 32 == 11 ||
      n - 32 == 12 || n - 32 == 13) = true := by
    simp only [Bool.or_eq_true, beq_iff_eq]
    omega
  have hn : ¬(n == 32 || n == 9 || n == 10 || n == 11 || n == 12 || n == 13) = true := by
    simp only [Bool.or_eq_true, beq_iff_eq]
    omega
  simp only [Bool.not_eq_true] at h32 hn
  rw [h32, hn]

theorem dropWhile_dropWhile (p : Nat → Bool) (l : List Nat) :
    (l.dropWhile p).dropWhile p = l.dropWhile p := by
  induction l with
  | nil => rfl
  | cons a t ih =>
    by_cases h : p a = true
    · simp [List.dropWhile_cons, h, ih]
    · simp [List.dropWhile_cons, h]

theorem lstrip_lstrip (s : PyStr) : lstrip (lstrip s) = lstrip s :=
  dropWhile_dropWhile isSpace s

theorem rstrip_rstrip (s : PyStr) : rstrip (rstrip s) = rstrip s := by
  unfold rstrip
  rw [List.reverse_reverse, dropWhile_dropWhile]

/-- If a list has no leading whitespace, right-stripping cannot create any. -/
theorem lstrip_rstrip_of_lstrip_fixed (m : PyStr) (hm : lstrip m = m) :
    lstrip (rstrip m) = rstrip m := by
  cases m with
  | nil => rfl
  | cons a t =>
    have ha : isSpace a = false := by
      by_contra hcontra
      have ha' : isSpace a = true := by
        cases h : isSpace a
        · exact absurd h hcontra
        · rfl
      have : lstrip (a :: t) = lstrip t := by
        simp [lstrip, List.dropWhile_cons, ha']
      rw [hm] at this
      have hlen : (lstrip t).length ≤ t.length :=
        List.Sublist.length_le (List.dropWhile_sublist isSpace)
      rw [← this] at hlen
      simp at hlen
    unfold rstrip lstrip
    rw [List.reverse_cons, List.dropWhile_append]
    split
    · simp [List.dropWhile_cons, ha]
    · rw [List.reverse_append]
      simp [List.dropWhile_cons, ha]

theorem pyStrip_pyStrip (s : PyStr) : pyStrip (pyStrip s) = pyStrip s := by
  unfold pyStrip
  rw [lstrip_rstrip_of_lstrip_fixed (lstrip s) (lstrip_lstrip s), rstrip_rstrip]

theorem isSpace_comp_upperCode : isSpace ∘ upperCode = isSpace :=
  funext isSpace_upperCode

theorem lstrip_pyUpper (s : PyStr) : lstrip (pyUpper s) = pyUpper (lstrip s) := by
  unfold lstrip pyUpper
  rw [List.dropWhile_map, isSpace_comp_upperCode]

theorem rstrip_pyUpper (s : PyStr) : rstrip (pyUpper s) = pyUpper (rstrip s) := by
  unfold rstrip pyUpper
  rw [← List.map_reverse, List.dropWhile_map, List.map_reverse, isSpace_comp_upperCode]

theorem pyStrip_pyUpper (s : PyStr) : pyStrip (pyUpper s) = pyUpper (pyStrip s) := by
  unfold pyStrip
  rw [lstrip_pyUpper, rstrip_pyUpper]

theorem upperCode_comp : upperCode ∘ upperCode = upperCode := by
  funext n
  exact upperCode_upperCode n

theorem pyUpper_pyUpper (s : PyStr) : pyUpper (pyUpper s) = pyUpper s := by
  unfold pyUpper
  rw [List.map_map, upperCode_comp]

/-- Normalization is idempotent. -/
theorem stripUpper_stripUpper (s : PyStr) : stripUpper (stripUpper s) = stripUpper s := by
  unfold stripUpper
  rw [pyStrip_pyUpper, pyStrip_pyStrip, pyUpper_pyUpper]

/-- Normalizing after upper-casing and stripping in the spec's order
(`trim(upper(s))`) gives the same key as the code's `s.strip().upper()`. -/
theorem stripUpper_pyStrip_pyUpper (s : PyStr) :
    stripUpper (pyStrip (pyUpper s)) = stripUpper s := by
  rw [pyStrip_pyUpper]
  exact stripUpper_stripUpper s

/-- The lookup consults its inputs only through their normalized forms. -/
theorem find_order_details_congr (o o' a a' : PyStr) (df : List Record)
    (h₁ : stripUpper o = stripUpper o') (h₂ : stripUpper a = stripUpper a') :
    find_order_details o a df = find_order_details o' a' df := by
  unfold find_order_details
  rw [h₁, h₂]

/-- C3: lookup is invariant under leading/trailing whitespace and letter
case of both inputs — `lookup(s1, s2)` equals
`lookup(trim(upper(s1)), trim(upper(s2)))` on every snapshot; in
particular `lookup(" sap0014689 ", "c28402-b0")` returns the same result
as lookup with the keys `SAP0014689` / `C28402-B0`. -/
theorem C3_lookup_normalization_invariant :
    (∀ (df : List Record) (s₁ s₂ : PyStr),
        find_order_details s₁ s₂ df
          = find_order_details (pyStrip (pyUpper s₁)) (pyStrip (pyUpper s₂)) df) ∧
    (∀ df : List Record,
        find_order_details (pyStr (" sap0014689 ")) (pyStr ("c28402-b0")) df
          = find_order_details (pyStr ("SAP0014689")) (pyStr ("C28402-B0")) df) := by
  constructor
  · intro df s₁ s₂
    exact find_order_details_congr _ _ _ _ df
      (stripUpper_pyStrip_pyUpper s₁).symm (stripUpper_pyStrip_pyUpper s₂).symm
  · intro df
    exact find_order_details_congr _ _ _ _ df (by decide) (by decide)

/-- C5 counterexample: a session that timed out with 2 failed attempts and
an active lockout. `check_timeout` reports the timeout but leaves the
failed-attempt count and the lockout-expiry untouched (app.py lines
130-139 reset only stage, name and order id), contradicting the claimed
full reset. -/
theorem C5_counterexample :
    (check_timeout ⟨.validate, pyStr ("Ada"), pyStr ("SAP0014689"), 2, some 1000, 0⟩
        1000).1 = true ∧
    (check_timeout ⟨.validate, pyStr ("Ada"), pyStr ("SAP0014689"), 2, some 1000, 0⟩
        1000).2.attempts ≠ 0 ∧
    (check_timeout ⟨.validate, pyStr ("Ada"), pyStr ("SAP0014689"), 2, some 1000, 0⟩
        1000).2.blocked_until ≠ none := by
  refine ⟨rfl, ?_, ?_⟩ <;> decide

/-- C5 (amended): when `now - lastActivity` exceeds the 15-minute timeout,
`check_timeout` returns true and resets the stage to AwaitingName, clearing
the customer name and the pending order id; the failed-attempt count, the
lockout-expiry and `last_activity` are left unchanged, and the session
holds no resolved-order history to clear. -/
theorem C5_timeout_resets_stage_only (s : Session) (now : Nat)
    (h : now - s.last_activity > SESSION_TIMEOUT_SECS) :
    check_timeout s now
      = (true, { s with stage := .name, customer_name := [], order_id := [] }) := by
  unfold check_timeout
  rw [if_pos h]

/-- C5 witness: the amended statement at the counterexample's input. -/
theorem C5_timeout_resets_stage_only_witness :
    check_timeout ⟨.validate, pyStr ("Ada"), pyStr ("SAP0014689"), 2, some 1000, 0⟩ 1000
      = (true, ⟨.name, [], [], 2, some 1000, 0⟩) :=
  C5_timeout_resets_stage_only ⟨.validate, pyStr ("Ada"), pyStr ("SAP0014689"), 2, some 1000, 0⟩
    1000 (by decide)

/-- C6: any number of `check_timeout` calls within the inactivity window
all return false and mutate nothing but `last_activity`, which ends at the
time of the last call. -/
theorem C6_checkTimeout_within_window_frame (s : Session) (ts : List Nat)
    (h : withinWindow s ts = true) :
    timeoutResults s ts = List.replicate ts.length false ∧
    (runTimeouts s ts).stage = s.stage ∧
    (runTimeouts s ts).customer_name = s.customer_name ∧
    (runTimeouts s ts).order_id = s.order_id ∧
    (runTimeouts s ts).attempts = s.attempts ∧
    (runTimeouts s ts).blocked_until = s.blocked_until ∧
    (runTimeouts s ts).last_activity = ts.getLastD s.last_activity := by
  induction ts generalizing s with
  | nil => simp [timeoutResults, runTimeouts]
  | cons t ts ih =>
    unfold withinWindow at h
    rw [Bool.and_eq_true] at h
    obtain ⟨h₁, h₂⟩ := h
    have hle : t - s.last_activity ≤ SESSION_TIMEOUT_SECS := of_decide_eq_true h₁
    have hct : check_timeout s t = (false, { s with last_activity := t }) := by
      unfold check_timeout
      rw [if_neg (by omega)]
    rw [hct] at h₂
    obtain ⟨r₁, r₂, r₃, r₄, r₅, r₆, r₇⟩ := ih { s with last_activity := t } h₂
    simp only [timeoutResults, runTimeouts, hct, List.length_cons,
      List.replicate_succ, List.getLastD_cons]
    exact ⟨by rw [r₁], r₂, r₃, r₄, r₅, r₆, r₇⟩

/-- C6 witness: two calls inside the window on a fresh session. -/
theorem C6_checkTimeout_within_window_frame_witness :
    timeoutResults (init_session 0) [100, 200] = List.replicate 2 false ∧
    (runTimeouts (init_session 0) [100, 200]).stage = (init_session 0).stage ∧
    (runTimeouts (init_session 0) [100, 200]).customer_name
      = (init_session 0).customer_name ∧
    (runTimeouts (init_session 0) [100, 200]).order_id = (init_session 0).order_id ∧
    (runTimeouts (init_session 0) [100, 200]).attempts = (init_session 0).attempts ∧
    (runTimeouts (init_session 0) [100, 200]).blocked_until
      = (init_session 0).blocked_until ∧
    (runTimeouts (init_session 0) [100, 200]).last_activity
      = [100, 200].getLastD (init_session 0).last_activity :=
  C6_checkTimeout_within_window_frame (init_session 0) [100, 200] (by decide)

/-- C7 counterexample: the single-character name "A" has trimmed length
1 < 2, yet the Confirm handler (app.py lines 329-336) accepts it — it only
rejects names whose stripped form is empty — storing the name and moving
the stage to "order". This contradicts the claimed minimum length of 2. -/
theorem C7_counterexample :
    (pyStrip (pyStr ("A"))).length < 2 ∧
    (step (init_session 0) 0 (.confirmName (pyStr ("A"))) []).1 = .nameAccepted ∧
    (step (init_session 0) 0 (.confirmName (pyStr ("A"))) []).2.stage = .order := by
  refine ⟨by decide, ?_, ?_⟩ <;> decide

/-- C7 (amended): in stage AwaitingName, `confirmName` rejects exactly the
names whose stripped form is empty, leaving the session unchanged (and
touching neither the lookup nor the rate limiter — the reported outcome
and the session are the same for every snapshot); any non-empty stripped
name is stored (stripped) and the stage becomes AwaitingOrderId. -/
theorem C7_confirm_name_empty_check (s : Session) (nm : PyStr) (now : Nat)
    (df : List Record) (hstage : s.stage = .name) :
    (pyStrip nm = [] → step s now (.confirmName nm) df = (.nameRejected, s)) ∧
    (pyStrip nm ≠ [] →
      step s now (.confirmName nm) df
        = (.nameAccepted, { s with customer_name := pyStrip nm, stage := .order })) := by
  constructor <;> intro h <;> simp [step, hstage, h]

/-- C7 witness: the amended statement on a fresh session with name "Ada". -/
theorem C7_confirm_name_empty_check_witness :
    step (init_session 0) 0 (.confirmName (pyStr ("Ada"))) []
      = (.nameAccepted, ⟨.order, pyStr ("Ada"), [], 0, none, 0⟩) :=
  (C7_confirm_name_empty_check (init_session 0) (pyStr ("Ada")) 0 [] rfl).2 (by decide)

/-- If a validate-stage button interaction reports `Found` rows, it was the
verify handler's success branch, which only zeroes the attempt count. -/
theorem validateButtons_found (s s' : Session) (now : Nat) (ev : UiEvent)
    (df : List Record) (rows : List Record)
    (h : validateButtons s now ev df = (.foundRows rows, s')) :
    s' = { s with attempts := 0 } := by
  cases ev with
  | confirmName nm => simp [validateButtons] at h
  | submitOrderId oid => simp [validateButtons] at h
  | restart => simp [validateButtons] at h
  | back => simp [validateButtons] at h
  | checkAnother => simp [validateButtons] at h
  | verify inv =>
    by_cases hpe : pyStrip inv = []
    · simp [validateButtons, hpe] at h
    · cases hfo : find_order_details s.order_id (stripUpper inv) df with
      | found rows₀ =>
        simp only [validateButtons, if_neg hpe, hfo, Prod.mk.injEq] at h
        exact h.2.symm
      | invalidInvoice =>
        simp only [validateButtons, if_neg hpe, hfo] at h
        split at h <;> simp at h
      | notFound =>
        simp only [validateButtons, if_neg hpe, hfo] at h
        split at h <;> simp at h

/-- C4: whenever a verify interaction reports `Found` rows, the resulting
session has failed-attempt count exactly 0 and no lockout-expiry (the
success branch at app.py line 413 zeroes the count, and the blocked check
at lines 368-376 guarantees `blocked_until` is already `None` on every
path that reaches the lookup). -/
theorem C4_success_resets_rate_limiter (s s' : Session) (now : Nat)
    (ev : UiEvent) (df : List Record) (rows : List Record)
    (h : step s now ev df = (.foundRows rows, s')) :
    s'.attempts = 0 ∧ s'.blocked_until = none := by
  obtain ⟨stage, nm, oid, att, bu, la⟩ := s
  cases stage with
  | name =>
    cases ev <;> simp only [step] at h <;> try simp at h
    split at h <;> simp at h
  | order =>
    cases ev <;> simp only [step] at h <;> try simp at h
    split at h <;> simp at h
  | validate =>
    cases bu with
    | none =>
      simp only [step, validateStep] at h
      have := validateButtons_found _ _ _ _ _ _ h
      subst this
      exact ⟨rfl, rfl⟩
    | some b =>
      simp only [step, validateStep] at h
      split at h
      · simp at h
      · have := validateButtons_found _ _ _ _ _ _ h
        subst this
        exact ⟨rfl, rfl⟩

/-- C4 witness: a successful verify against the fallback data from a
session with 2 failed attempts. -/
theorem C4_success_resets_rate_limiter_witness :
    (⟨.validate, pyStr ("ADA"), pyStr ("SAP0014689"), 0, none, 0⟩ : Session).attempts = 0 ∧
    (⟨.validate, pyStr ("ADA"), pyStr ("SAP0014689"), 0, none, 0⟩ : Session).blocked_until
      = none :=
  C4_success_resets_rate_limiter
    ⟨.validate, pyStr ("ADA"), pyStr ("SAP0014689"), 2, none, 0⟩
    ⟨.validate, pyStr ("ADA"), pyStr ("SAP0014689"), 0, none, 0⟩
    5 (.verify (pyStr ("c28402-b0"))) fallback_df
    [⟨5637945894, pyStr ("SAP0014689"), pyStr ("C28402-B0")⟩]
    (by decide)

/-- C8: in stage "validate", whenever the Back button can act — during an
active lock the rerun stops at app.py line 372 before the button is even
rendered, so Back cannot fire then — the session moves to stage "order"
with failed-attempt count 0 and no lockout-expiry (`attempts` is zeroed at
line 396; `blocked_until` is `None` on every path that reaches the button:
either it already was, or the expired lock was cleared at line 375). -/
theorem C8_back_resets (s : Session) (now : Nat) (df : List Record)
    (hstage : s.stage = .validate)
    (hnl : ∀ b, s.blocked_until = some b → ¬ now < b) :
    step s now .back df
      = (.backDone, { s with stage := .order, attempts := 0, blocked_until := none }) := by
  obtain ⟨stage, nm, oid, att, bu, la⟩ := s
  subst hstage
  cases bu with
  | none => simp [step, validateStep, validateButtons]
  | some b =>
    have hb : ¬ now < b := hnl b rfl
    simp [step, validateStep, validateButtons, hb]

/-- C8 witness: Back on a session whose lockout has expired. -/
theorem C8_back_resets_witness :
    step ⟨.validate, pyStr ("ADA"), pyStr ("X"), 3, some 10, 0⟩ 50 .back []
      = (.backDone, ⟨.order, pyStr ("ADA"), pyStr ("X"), 0, none, 0⟩) :=
  C8_back_resets ⟨.validate, pyStr ("ADA"), pyStr ("X"), 3, some 10, 0⟩ 50 [] rfl
    (by
      intro b hb
      injection hb with hb
      subst hb
      omega)

/-- A failed verify below the lockout threshold only increments the
failed-attempt count (app.py lines 423-440, else branches). -/
theorem verify_failure_below_threshold (s s' : Session) (now : Nat) (inv : PyStr)
    (df : List Record) (o : Outcome)
    (hstage : s.stage = .validate) (hb : s.blocked_until = none)
    (hlt : s.attempts + 1 < MAX_ATTEMPTS)
    (h : step s now (.verify inv) df = (o, s')) (hf : o.isFailure = true) :
    s' = { s with attempts := s.attempts + 1 } := by
  obtain ⟨stage, nm, oid, att, bu, la⟩ := s
  subst hstage
  subst hb
  have hcond : att + 1 < MAX_ATTEMPTS := hlt
  simp only [step, validateStep] at h
  by_cases hpe : pyStrip inv = []
  · simp only [validateButtons, if_pos hpe, Prod.mk.injEq] at h
    obtain ⟨ho, hs⟩ := h
    subst ho
    simp [Outcome.isFailure] at hf
  · cases hfo : find_order_details oid (stripUpper inv) df with
    | found rows₀ =>
      simp only [validateButtons, if_neg hpe, hfo, Prod.mk.injEq] at h
      obtain ⟨ho, hs⟩ := h
      subst ho
      simp [Outcome.isFailure] at hf
    | invalidInvoice =>
      simp only [validateButtons, if_neg hpe, hfo] at h
      rw [if_neg (by omega)] at h
      exact (Prod.mk.injEq .. ▸ h).2.symm
    | notFound =>
      simp only [validateButtons, if_neg hpe, hfo] at h
      rw [if_neg (by omega)] at h
      exact (Prod.mk.injEq .. ▸ h).2.symm

/-- A failed verify that reaches the lockout threshold also sets the
lockout-expiry to `now + 5` minutes (app.py lines 427-428, 436-437). -/
theorem verify_failure_at_threshold (s s' : Session) (now : Nat) (inv : PyStr)
    (df : List Record) (o : Outcome)
    (hstage : s.stage = .validate) (hb : s.blocked_until = none)
    (hge : MAX_ATTEMPTS ≤ s.attempts + 1)
    (h : step s now (.verify inv) df = (o, s')) (hf : o.isFailure = true) :
    s' = { s with attempts := s.attempts + 1,
                  blocked_until := some (now + LOCKOUT_SECS) } := by
  obtain ⟨stage, nm, oid, att, bu, la⟩ := s
  subst hstage
  subst hb
  have hcond : MAX_ATTEMPTS ≤ att + 1 := hge
  simp only [step, validateStep] at h
  by_cases hpe : pyStrip inv = []
  · simp only [validateButtons, if_pos hpe, Prod.mk.injEq] at h
    obtain ⟨ho, hs⟩ := h
    subst ho
    simp [Outcome.isFailure] at hf
  · cases hfo : find_order_details oid (stripUpper inv) df with
    | found rows₀ =>
      simp only [validateButtons, if_neg hpe, hfo, Prod.mk.injEq] at h
      obtain ⟨ho, hs⟩ := h
      subst ho
      simp [Outcome.isFailure] at hf
    | invalidInvoice =>
      simp only [validateButtons, if_neg hpe, hfo] at h
      rw [if_pos hcond] at h
      exact (Prod.mk.injEq .. ▸ h).2.symm
    | notFound =>
      simp only [validateButtons, if_neg hpe, hfo] at h
      rw [if_pos hcond] at h
      exact (Prod.mk.injEq .. ▸ h).2.symm

/-- C2: from a clean validate-stage session, three consecutive failed
verifications (account mismatch or order not found, in any combination, on
any snapshots) set the lockout-expiry to the third failure's time plus 5
minutes; at every instant strictly before that expiry, any further verify
— with any input and ANY snapshot, showing the lookup is never consulted —
reports `LockedOut` with the remaining seconds and leaves the session,
including its failed-attempt count, unchanged. -/
theorem C2_lockout_after_three_failures
    (s s₁ s₂ s₃ : Session) (t₁ t₂ t₃ : Nat) (i₁ i₂ i₃ : PyStr)
    (d₁ d₂ d₃ : List Record) (o₁ o₂ o₃ : Outcome)
    (hstage : s.stage = .validate) (ha : s.attempts = 0) (hb : s.blocked_until = none)
    (h₁ : step s t₁ (.verify i₁) d₁ = (o₁, s₁)) (f₁ : o₁.isFailure = true)
    (h₂ : step s₁ t₂ (.verify i₂) d₂ = (o₂, s₂)) (f₂ : o₂.isFailure = true)
    (h₃ : step s₂ t₃ (.verify i₃) d₃ = (o₃, s₃)) (f₃ : o₃.isFailure = true) :
    s₃.blocked_until = some (t₃ + LOCKOUT_SECS) ∧
    ∀ t, t < t₃ + LOCKOUT_SECS → ∀ inv df,
      step s₃ t (.verify inv) df
        = (.lockedOut (t₃ + LOCKOUT_SECS - t), s₃) := by
  obtain ⟨stage, nm, oid, att, bu, la⟩ := s
  subst hstage
  subst hb
  subst ha
  have e₁ : s₁ = ⟨.validate, nm, oid, 1, none, la⟩ :=
    verify_failure_below_threshold ⟨.validate, nm, oid, 0, none, la⟩ s₁ t₁ i₁ d₁ o₁
      rfl rfl (by show 0 + 1 < MAX_ATTEMPTS; decide) h₁ f₁
  subst e₁
  have e₂ : s₂ = ⟨.validate, nm, oid, 2, none, la⟩ :=
    verify_failure_below_threshold ⟨.validate, nm, oid, 1, none, la⟩ s₂ t₂ i₂ d₂ o₂
      rfl rfl (by show 1 + 1 < MAX_ATTEMPTS; decide) h₂ f₂
  subst e₂
  have e₃ : s₃ = ⟨.validate, nm, oid, 3, some (t₃ + LOCKOUT_SECS), la⟩ :=
    verify_failure_at_threshold ⟨.validate, nm, oid, 2, none, la⟩ s₃ t₃ i₃ d₃ o₃
      rfl rfl (by show MAX_ATTEMPTS ≤ 2 + 1; decide) h₃ f₃
  subst e₃
  refine ⟨rfl, ?_⟩
  intro t ht inv df
  simp [step, validateStep, ht]

/-- C2 witness: three account mismatches on the fallback data at times
0, 1, 2; at time 100 a verify with the correct account is still rejected
with 202 seconds remaining. -/
theorem C2_lockout_after_three_failures_witness :
    (⟨.validate, pyStr ("ADA"), pyStr ("SAP0014689"), 3, some 302, 0⟩ : Session).blocked_until
      = some 302 ∧
    step ⟨.validate, pyStr ("ADA"), pyStr ("SAP0014689"), 3, some 302, 0⟩ 100
        (.verify (pyStr ("C28402-B0"))) fallback_df
      = (.lockedOut 202,
         ⟨.validate, pyStr ("ADA"), pyStr ("SAP0014689"), 3, some 302, 0⟩) := by
  have h := C2_lockout_after_three_failures
    ⟨.validate, pyStr ("ADA"), pyStr ("SAP0014689"), 0, none, 0⟩
    ⟨.validate, pyStr ("ADA"), pyStr ("SAP0014689"), 1, none, 0⟩
    ⟨.validate, pyStr ("ADA"), pyStr ("SAP0014689"), 2, none, 0⟩
    ⟨.validate, pyStr ("ADA"), pyStr ("SAP0014689"), 3, some 302, 0⟩
    0 1 2 (pyStr ("WRONGACC")) (pyStr ("WRONGACC")) (pyStr ("WRONGACC"))
    fallback_df fallback_df fallback_df .mismatch .mismatch .mismatchLocked
    rfl rfl rfl (by decide) rfl (by decide) rfl (by decide) rfl
  exact ⟨h.1, h.2 100 (by decide) (pyStr ("C28402-B0")) fallback_df⟩

/-- Keys of loaded rows are already normalized, so normalizing them again
changes nothing. -/
theorem load_normalize_keys_fixed (df : List Record) (r : Record)
    (hr : r ∈ load_normalize df) :
    stripUpper r.salesOrder = r.salesOrder ∧
    stripUpper r.invoiceAccount = r.invoiceAccount := by
  unfold load_normalize at hr
  obtain ⟨r₀, hr₀, hre⟩ := List.mem_map.mp hr
  subst hre
  exact ⟨stripUpper_stripUpper _, stripUpper_stripUpper _⟩

/-- On loaded rows, the claim-side predicate coincides with the code's
filter. -/
theorem filter_claimMatches_eq (df : List Record) (o a : PyStr) :
    (load_normalize df).filter (claimMatches o a)
      = (load_normalize df).filter (fun r =>
          r.salesOrder == stripUpper o && r.invoiceAccount == stripUpper a) := by
  apply List.filter_congr
  intro r hr
  obtain ⟨h₁, h₂⟩ := load_normalize_keys_fixed df r hr
  simp [claimMatches, h₁, h₂]

/-- On loaded rows, the claim-side order predicate coincides with the
code's order-exists filter. -/
theorem filter_claimOrderMatch_eq (df : List Record) (o : PyStr) :
    (load_normalize df).filter (claimOrderMatch o)
      = (load_normalize df).filter (fun r => r.salesOrder == stripUpper o) := by
  apply List.filter_congr
  intro r hr
  obtain ⟨h₁, _⟩ := load_normalize_keys_fixed df r hr
  simp [claimOrderMatch, h₁]

/-- C1: on every loaded snapshot and for all inputs with non-empty
normalized forms, the lookup returns `Found` with exactly the rows whose
normalized keys both match, in snapshot order, when any exist; otherwise
`invalid_invoice` when some row carries the normalized order identifier
under any account; otherwise `None` — and it never returns `None` while a
row with the normalized order identifier exists. -/
theorem C1_lookup_trichotomy (df : List Record) (o a : PyStr)
    (ho : stripUpper o ≠ []) (ha : stripUpper a ≠ []) :
    ((load_normalize df).filter (claimMatches o a) ≠ [] →
      find_order_details o a (load_normalize df)
        = .found ((load_normalize df).filter (claimMatches o a))) ∧
    ((load_normalize df).filter (claimMatches o a) = [] →
      (∃ r ∈ load_normalize df, claimOrderMatch o r) →
      find_order_details o a (load_normalize df) = .invalidInvoice) ∧
    ((load_normalize df).filter (claimMatches o a) = [] →
      (¬ ∃ r ∈ load_normalize df, claimOrderMatch o r) →
      find_order_details o a (load_normalize df) = .notFound) ∧
    ((∃ r ∈ load_normalize df, claimOrderMatch o r) →
      find_order_details o a (load_normalize df) ≠ .notFound) := by
  have hM := filter_claimMatches_eq df o a
  have hOrd := filter_claimOrderMatch_eq df o
  have hexists : (∃ r ∈ load_normalize df, claimOrderMatch o r) ↔
      (load_normalize df).filter (fun r => r.salesOrder == stripUpper o) ≠ [] := by
    rw [← hOrd]
    constructor
    · rintro ⟨r, hr, hc⟩ hnil
      have hmem : r ∈ (load_normalize df).filter (claimOrderMatch o) :=
        List.mem_filter.mpr ⟨hr, hc⟩
      rw [hnil] at hmem
      simp at hmem
    · intro hne
      obtain ⟨r, hr⟩ := List.exists_mem_of_ne_nil _ hne
      obtain ⟨hr₁, hr₂⟩ := List.mem_filter.mp hr
      exact ⟨r, hr₁, hr₂⟩
  by_cases hrows : (load_normalize df).filter
      (fun r => r.salesOrder == stripUpper o && r.invoiceAccount == stripUpper a) = []
  · by_cases hord : (load_normalize df).filter
        (fun r => r.salesOrder == stripUpper o) = []
    · have hfind : find_order_details o a (load_normalize df) = .notFound := by
        simp [find_order_details, hrows, hord]
      refine ⟨?_, ?_, ?_, ?_⟩
      · intro hne
        rw [hM] at hne
        exact absurd hrows hne
      · intro _ hex
        exact absurd hord (hexists.mp hex)
      · intro _ _
        exact hfind
      · intro hex
        exact absurd hord (hexists.mp hex)
    · have hfind : find_order_details o a (load_normalize df) = .invalidInvoice := by
        simp [find_order_details, hrows, hord]
      refine ⟨?_, ?_, ?_, ?_⟩
      · intro hne
        rw [hM] at hne
        exact absurd hrows hne
      · intro _ _
        exact hfind
      · intro _ hnex
        exact absurd (hexists.mpr hord) hnex
      · intro _
        rw [hfind]
        simp
  · have hfind : find_order_details o a (load_normalize df)
        = .found ((load_normalize df).filter (fun r =>
            r.salesOrder == stripUpper o && r.invoiceAccount == stripUpper a)) := by
      simp [find_order_details, hrows]
    refine ⟨?_, ?_, ?_, ?_⟩
    · intro _
      rw [hM]
      exact hfind
    · intro heq
      rw [hM] at heq
      exact absurd heq hrows
    · intro heq
      rw [hM] at heq
      exact absurd heq hrows
    · intro _
      rw [hfind]
      simp

/-- C1 witness: a one-row raw snapshot whose keys normalize to
`SAP0014689` / `C28402-B0`, looked up with exactly those keys. -/
theorem C1_lookup_trichotomy_witness :
    find_order_details (pyStr ("SAP0014689")) (pyStr ("C28402-B0"))
        (load_normalize [⟨1, pyStr (" sap0014689 "), pyStr (" c28402-b0 ")⟩])
      = .found ((load_normalize [⟨1, pyStr (" sap0014689 "), pyStr (" c28402-b0 ")⟩]).filter
          (claimMatches (pyStr ("SAP0014689")) (pyStr ("C28402-B0")))) :=
  (C1_lookup_trichotomy [⟨1, pyStr (" sap0014689 "), pyStr (" c28402-b0 ")⟩]
    (pyStr ("SAP0014689")) (pyStr ("C28402-B0")) (by decide) (by decide)).1 (by decide)

/-- The validate-stage buttons preserve the rate-limiter invariant from
any unblocked, below-threshold state. -/
theorem validateButtons_inv (s : Session) (now : Nat) (ev : UiEvent)
    (df : List Record) (hb : s.blocked_until = none)
    (hlt : s.attempts < MAX_ATTEMPTS) :
    RateInv (validateButtons s now ev df).2 := by
  obtain ⟨stage, nm, oid, att, bu, la⟩ := s
  subst hb
  have hlt' : att < MAX_ATTEMPTS := hlt
  cases ev with
  | confirmName nm₂ =>
    exact ⟨by show att ≤ MAX_ATTEMPTS; omega,
           by show (none : Option Nat) ≠ none ↔ att = MAX_ATTEMPTS; simp <;> omega⟩
  | submitOrderId oid₂ =>
    exact ⟨by show att ≤ MAX_ATTEMPTS; omega,
           by show (none : Option Nat) ≠ none ↔ att = MAX_ATTEMPTS; simp <;> omega⟩
  | restart =>
    exact ⟨by show att ≤ MAX_ATTEMPTS; omega,
           by show (none : Option Nat) ≠ none ↔ att = MAX_ATTEMPTS; simp <;> omega⟩
  | back =>
    exact ⟨by show 0 ≤ MAX_ATTEMPTS; omega,
           by show (none : Option Nat) ≠ none ↔ 0 = MAX_ATTEMPTS; simp <;> omega⟩
  | checkAnother =>
    exact ⟨by show att ≤ MAX_ATTEMPTS; omega,
           by show (none : Option Nat) ≠ none ↔ att = MAX_ATTEMPTS; simp <;> omega⟩
  | verify inv =>
    by_cases hpe : pyStrip inv = []
    · simp only [validateButtons, if_pos hpe]
      exact ⟨by show att ≤ MAX_ATTEMPTS; omega,
             by show (none : Option Nat) ≠ none ↔ att = MAX_ATTEMPTS; simp <;> omega⟩
    · cases hfo : find_order_details oid (stripUpper inv) df with
      | found rows =>
        simp only [validateButtons, if_neg hpe, hfo]
        exact ⟨by show 0 ≤ MAX_ATTEMPTS; omega,
               by show (none : Option Nat) ≠ none ↔ 0 = MAX_ATTEMPTS; simp <;> omega⟩
      | invalidInvoice =>
        simp only [validateButtons, if_neg hpe, hfo]
        by_cases hth : MAX_ATTEMPTS ≤ att + 1
        · rw [if_pos hth]
          exact ⟨by show att + 1 ≤ MAX_ATTEMPTS; omega,
                 by show some (now + LOCKOUT_SECS) ≠ none ↔ att + 1 = MAX_ATTEMPTS
                    simp <;> omega⟩
        · rw [if_neg hth]
          exact ⟨by show att + 1 ≤ MAX_ATTEMPTS; omega,
                 by show (none : Option Nat) ≠ none ↔ att + 1 = MAX_ATTEMPTS
                    simp <;> omega⟩
      | notFound =>
        simp only [validateButtons, if_neg hpe, hfo]
        by_cases hth : MAX_ATTEMPTS ≤ att + 1
        · rw [if_pos hth]
          exact ⟨by show att + 1 ≤ MAX_ATTEMPTS; omega,
                 by show some (now + LOCKOUT_SECS) ≠ none ↔ att + 1 = MAX_ATTEMPTS
                    simp <;> omega⟩
        · rw [if_neg hth]
          exact ⟨by show att + 1 ≤ MAX_ATTEMPTS; omega,
                 by show (none : Option Nat) ≠ none ↔ att + 1 = MAX_ATTEMPTS
                    simp <;> omega⟩

/-- The whole validate stage preserves the rate-limiter invariant. -/
theorem validateStep_inv (s : Session) (now : Nat) (ev : UiEvent)
    (df : List Record) (hinv : RateInv s) :
    RateInv (validateStep s now ev df).2 := by
  obtain ⟨hle, hiff⟩ := hinv
  obtain ⟨stage, nm, oid, att, bu, la⟩ := s
  have hle' : att ≤ MAX_ATTEMPTS := hle
  cases bu with
  | none =>
    have hne : att ≠ MAX_ATTEMPTS := by
      intro hcontr
      exact absurd (hiff.mpr hcontr) (by simp)
    simp only [validateStep]
    exact validateButtons_inv _ now ev df rfl (by show att < MAX_ATTEMPTS; omega)
  | some b =>
    simp only [validateStep]
    split
    · exact ⟨hle, hiff⟩
    · exact validateButtons_inv _ now ev df rfl
        (by show 0 < MAX_ATTEMPTS; decide)

/-- Every user action preserves the rate-limiter invariant. -/
theorem step_inv (s : Session) (now : Nat) (ev : UiEvent) (df : List Record)
    (hinv : RateInv s) : RateInv (step s now ev df).2 := by
  obtain ⟨stage, nm, oid, att, bu, la⟩ := s
  cases stage with
  | name =>
    cases ev <;> simp only [step] <;>
      first
      | exact hinv
      | (split <;> exact hinv)
  | order =>
    cases ev <;> simp only [step] <;>
      first
      | exact hinv
      | (split <;> exact hinv)
  | validate =>
    exact validateStep_inv _ now ev df hinv

/-- The timeout check preserves the rate-limiter invariant (it never
touches `attempts` or `blocked_until`). -/
theorem check_timeout_inv (s : Session) (now : Nat) (hinv : RateInv s) :
    RateInv (check_timeout s now).2 := by
  unfold check_timeout
  split <;> exact hinv

/-- While the session is actively locked, no user action changes the
failed-attempt count. -/
theorem step_locked_attempts_unchanged (s : Session) (now : Nat) (ev : UiEvent)
    (df : List Record) (b : Nat) (hb : s.blocked_until = some b) (hlt : now < b) :
    (step s now ev df).2.attempts = s.attempts := by
  obtain ⟨stage, nm, oid, att, bu, la⟩ := s
  subst hb
  cases stage with
  | name =>
    cases ev <;> simp only [step] <;>
      first
      | rfl
      | (split <;> rfl)
  | order =>
    cases ev <;> simp only [step] <;>
      first
      | rfl
      | (split <;> rfl)
  | validate =>
    simp [step, validateStep, hlt]

/-- Rate-limiter invariant for fresh sessions. -/
theorem init_session_inv (t : Nat) : RateInv (init_session t) := by
  simp [RateInv, init_session, MAX_ATTEMPTS]

/-- The rate-limiter invariant holds in every reachable session. -/
theorem reachable_inv (s : Session) (h : Reachable s) : RateInv s := by
  induction h with
  | init t => exact init_session_inv t
  | step s now ev df hs ih => exact step_inv s now ev df ih
  | timeout s now hs ih => exact check_timeout_inv s now ih

/-- C10: in every reachable session the failed-attempt count lies between
0 and `MAX_ATTEMPTS` (3), a lockout-expiry is present only when the count
equals the threshold, and while the session is actively locked no user
action changes the count. -/
theorem C10_reachable_rate_invariant (s : Session) (h : Reachable s) :
    0 ≤ s.attempts ∧ s.attempts ≤ MAX_ATTEMPTS ∧
    (s.blocked_until ≠ none → s.attempts = MAX_ATTEMPTS) ∧
    (∀ now ev df b, s.blocked_until = some b → now < b →
      (step s now ev df).2.attempts = s.attempts) := by
  obtain ⟨h₁, h₂⟩ := reachable_inv s h
  exact ⟨Nat.zero_le _, h₁, fun hne => h₂.mp hne,
    fun now ev df b hb hlt => step_locked_attempts_unchanged s now ev df b hb hlt⟩

/-- C10 witness: the bound at a fresh session. -/
theorem C10_reachable_rate_invariant_witness :
    (init_session 0).attempts ≤ MAX_ATTEMPTS :=
  (C10_reachable_rate_invariant (init_session 0) (Reachable.init 0)).2.1
end App
